import Mathlib

/-!
Verification of the PR evaluation pipeline of X-EPAS
(backend/services/github_service.py, backend/services/claude_service.py,
backend/routes/github.py) against its specification.

Shallow embedding conventions: Python strings are Lean `String` values or
`List Char` where character-level reasoning is needed; `str.split(sep)` is
`splitOnChar`; `str.rstrip(sep)` is `rstrip`; fallible code returns
`Except`; the HTTP calls of the publisher are embedded as pure functions
over a `HostEnv` record that carries the status codes the host would
answer with, returning the list of calls made together with the result.
-/

/-- Lean counterpart of the Python `str.split(sep)` for a one-character
separator: splitting the empty list yields `[[]]`, exactly as in Python. -/
def splitOnChar (sep : Char) : List Char → List (List Char)
  | [] => [[]]
  | c :: cs =>
    if c = sep then [] :: splitOnChar sep cs
    else
      match splitOnChar sep cs with
      | [] => [[c]]
      | l :: ls => (c :: l) :: ls

/-- Lean counterpart of the Python `str.rstrip(sep)` for a one-character
argument: removes every trailing occurrence of `sep`. -/
def rstrip (sep : Char) (s : List Char) : List Char :=
  (s.reverse.dropWhile (fun c => c = sep)).reverse

/-- `line.startswith("@@")` (github_service.py:160). -/
def isHeader : List Char → Bool
  | c1 :: c2 :: _ => c1 = '@' && c2 = '@'
  | _ => false

/-- `line.startswith("+")` (github_service.py:176). -/
def startsPlus : List Char → Bool
  | c :: _ => c = '+'
  | [] => false

/-- `line.startswith(" ")` (github_service.py:188). -/
def startsSpace : List Char → Bool
  | c :: _ => c = ' '
  | [] => false

/-- `line.startswith("-")` (github_service.py:189/201). -/
def startsMinus : List Char → Bool
  | c :: _ => c = '-'
  | [] => false

/-- `int(...)` on a run of decimal digits. -/
def digitsToNat (ds : List Char) : Nat :=
  ds.foldl (fun n c => 10 * n + (c.toNat - 48)) 0

/-- Embeds `re.search(r"\+(\d+)", line)` followed by `int(match.group(1))`
(github_service.py:166-168): the leftmost `+` that is immediately followed
by at least one digit, with the maximal digit run after it. -/
def findPlusNum : List Char → Option Nat
  | [] => none
  | c :: cs =>
    if c = '+' then
      if cs.takeWhile Char.isDigit = [] then findPlusNum cs
      else some (digitsToNat (cs.takeWhile Char.isDigit))
    else findPlusNum cs

/-- The new-file line counter seeded from a hunk header
(github_service.py:166-168): `new_start - 1` when the header carries a
`+number`, the previous counter value otherwise. -/
def headerNewStart (l : List Char) (cur : Int) : Int :=
  match findPlusNum l with
  | some n => (n : Int) - 1
  | none => cur

/-- The combined condition under which the loop body of
`_calculate_diff_position` increments the new-file line counter
(github_service.py:176 and 188-190): the two branches for `+` lines and
for context lines have identical bodies, so they are merged here. -/
def countsNewLine (l : List Char) : Bool :=
  startsPlus l || (startsSpace l || (!(startsMinus l) && !(l.isEmpty)))

/-- The loop of `_calculate_diff_position` (github_service.py:158-207)
with its state passed explicitly: `pos` is `position`, `cur` is
`current_new_line`, `inh` is `in_hunk`, `lv` is `last_valid_position`,
`cl` is `closest_line`.  The base case is the final fallback
(github_service.py:203-207), including the Python truthiness test
`if last_valid_position` which also rejects a stored `0`. -/
def diffScanGo (t : Int) : List (List Char) → Nat → Int → Bool → Option Nat → Int → Option Nat
  | [], _pos, _cur, _inh, lv, cl =>
    match lv with
    | none => none
    | some p => if p ≠ 0 ∧ (cl - t).natAbs ≤ 5 then some p else none
  | l :: ls, pos, cur, inh, lv, cl =>
    if isHeader l then
      diffScanGo t ls 0 (headerNewStart l cur) true lv cl
    else if inh then
      if countsNewLine l then
        if cur + 1 = t then some (pos + 1)
        else if (cur + 1 - t).natAbs < (cl - t).natAbs then
          diffScanGo t ls (pos + 1) (cur + 1) true (some (pos + 1)) (cur + 1)
        else
          diffScanGo t ls (pos + 1) (cur + 1) true lv cl
      else
        diffScanGo t ls (pos + 1) cur true lv cl
    else
      diffScanGo t ls pos cur inh lv cl

/-- Embeds `GitHubService._calculate_diff_position`
(github_service.py:136-207): the guard for an empty patch, the split on
newlines, and the scan starting from `position = 0`,
`current_new_line = 0`, `in_hunk = False`, `last_valid_position = None`,
`closest_line = 0`. -/
def calculate_diff_position (patch : String) (target_line : Int) : Option Nat :=
  if patch = "" then none
  else diffScanGo target_line (splitOnChar '\n' patch.data) 0 0 false none 0

/-- The error raised by `GitHubService.parse_pr_link`
(github_service.py:20-23), called `InvalidReferenceFormat` in the
specification. -/
inductive ParseError where
  | invalidReferenceFormat
deriving DecidableEq, Repr

/-- Embeds `GitHubService.parse_pr_link` (github_service.py:16-27):
`parts = github_link.rstrip("/").split("/")`; error when there are fewer
than 7 parts or part 5 is not `"pull"`; otherwise parts 3, 4 and 6 are
returned as (owner, repo, pr_number).  The `getD` defaults are unreachable
on the success path because the length guard has already passed. -/
def parse_pr_link (github_link : String) : Except ParseError (String × String × String) :=
  let parts := (splitOnChar '/' (rstrip '/' github_link.data)).map (fun l => String.mk l)
  if parts.length < 7 ∨ parts.getD 5 "" ≠ "pull" then
    Except.error ParseError.invalidReferenceFormat
  else
    Except.ok (parts.getD 3 "", parts.getD 4 "", parts.getD 6 "")

/-- Embeds `FileDiff` (models/github.py:9-12). -/
structure FileDiff where
  filename : String
  status : String
  patch : String
deriving DecidableEq, Repr

/-- Embeds `ReviewComment` (models/github.py:15-19). -/
structure ReviewComment where
  path : String
  line : Int
  body : String
deriving DecidableEq, Repr

/-- Embeds `PRReview` (models/github.py:22-28); the 0-10 bounds of the
score fields are pydantic validation constraints, not needed by the
claims settled here. -/
structure PRReview where
  summary : String
  creativity_score : Int
  efficiency_score : Int
  edge_case_handling_score : Int
  review_comments : List ReviewComment
deriving DecidableEq, Repr

/-- One element of the `github_comments` list built by
`post_pr_review_comments` (github_service.py:286-295): the payload uses
line + side addressing and carries no `position` field. -/
structure GithubInlineComment where
  path : String
  line : Int
  side : String
  body : String
deriving DecidableEq, Repr

/-- The review-creation payload (github_service.py:299-304). -/
structure ReviewPayload where
  commit_id : String
  body : String
  event : String
  comments : List GithubInlineComment
deriving DecidableEq, Repr

/-- The HTTP calls the publisher can make, recorded as a trace by the
embedding. -/
inductive HostCall where
  | getCommitSha
  | createReview (payload : ReviewPayload)
  | createIssueComment (body : String)
deriving DecidableEq, Repr

/-- The status codes (and response urls) the host would answer with; the
effectful calls of the publisher are embedded as pure functions over this
record. -/
structure HostEnv where
  shaStatus : Nat
  commitSha : String
  reviewStatus : Nat
  reviewHtmlUrl : Option String
  generalStatus : Nat
  generalHtmlUrl : Option String
deriving DecidableEq, Repr

/-- Embeds `GitHubService.get_latest_commit_sha`
(github_service.py:100-134): 404 and 401 are singled out, any other
non-200 status is surfaced with its code, otherwise the head commit sha
is returned. -/
def get_latest_commit_sha (env : HostEnv) : List HostCall × Except Nat String :=
  ([HostCall.getCommitSha],
   if env.shaStatus = 404 then Except.error 404
   else if env.shaStatus = 401 then Except.error 401
   else if env.shaStatus ≠ 200 then Except.error env.shaStatus
   else Except.ok env.commitSha)

/-- Embeds `GitHubService.post_general_pr_comment`
(github_service.py:209-245): one issue-comment creation call; any status
other than 200/201 is an error; the response is reduced to its
`html_url` field, the only part the route reads. -/
def post_general_pr_comment (env : HostEnv) (comment : String) : List HostCall × Except Nat (Option String) :=
  ([HostCall.createIssueComment comment],
   if ¬(env.generalStatus = 200 ∨ env.generalStatus = 201) then Except.error env.generalStatus
   else Except.ok env.generalHtmlUrl)

/-- The block appended to the aggregated fallback comment for one
original comment (github_service.py:315-317). -/
def commentChunk (c : ReviewComment) : String :=
  "**" ++ c.path ++ ":L" ++ toString c.line ++ "**\n" ++ c.body ++ "\n\n"

/-- The aggregated fallback comment built on a 422
(github_service.py:313-317): the header followed by one
`**path:Lline**\nbody\n\n` block per original comment. -/
def fallback_general_comment (comments : List ReviewComment) : String :=
  comments.foldl (fun acc c => acc ++ commentChunk c) "## AI Code Review by xEPAS\n\n"

/-- The `github_comments` list built by the loop at
github_service.py:286-295: every comment is submitted with its raw
`line` and `side = "RIGHT"`. -/
def github_inline_comments (comments : List ReviewComment) : List GithubInlineComment :=
  comments.map (fun c => { path := c.path, line := c.line, side := "RIGHT", body := c.body })

/-- Embeds `GitHubService.post_pr_review_comments`
(github_service.py:247-336): empty comment lists short-circuit (the
response has no `html_url`); otherwise the head sha is fetched, the
review batch is submitted, a 422 answer triggers the single
general-comment fallback, 404/401/other non-2xx statuses are errors, and
success is reduced to the `html_url` of the response.  The `pr_files`
parameter is accepted, as in the source, and never used. -/
def post_pr_review_comments (env : HostEnv) (comments : List ReviewComment)
    (pr_files : List FileDiff) : List HostCall × Except Nat (Option String) :=
  if comments = [] then ([], Except.ok none)
  else
    match get_latest_commit_sha env with
    | (calls, Except.error e) => (calls, Except.error e)
    | (calls, Except.ok sha) =>
      let payload : ReviewPayload :=
        { commit_id := sha, body := "AI Code Review by xEPAS", event := "COMMENT",
          comments := github_inline_comments comments }
      let calls := calls ++ [HostCall.createReview payload]
      if env.reviewStatus = 422 then
        match post_general_pr_comment env (fallback_general_comment comments) with
        | (calls2, res) => (calls ++ calls2, res)
      else if env.reviewStatus = 404 then (calls, Except.error 404)
      else if env.reviewStatus = 401 then (calls, Except.error 401)
      else if ¬(env.reviewStatus = 200 ∨ env.reviewStatus = 201) then (calls, Except.error env.reviewStatus)
      else (calls, Except.ok env.reviewHtmlUrl)

/-- The body of the response of the route `/github/pr/evaluate-and-comment`
(routes/github.py:57-62). -/
structure EvalResponse where
  review : PRReview
  comments_posted : Bool
  review_url : Option String
  total_comments : Nat
deriving DecidableEq, Repr

/-- Embeds the tail of `evaluate_and_comment_pr` (routes/github.py:42-62),
from the point where evaluation has already produced `pr_review` and
`pr_files`: when there are review comments they are posted and any
`HTTPException` raised by the publisher propagates (there is no
try/except around the call); otherwise `comments_posted` stays false. -/
def evaluate_and_comment_pr (pr_review : PRReview) (pr_files : List FileDiff)
    (env : HostEnv) : Except Nat EvalResponse :=
  if pr_review.review_comments = [] then
    Except.ok { review := pr_review, comments_posted := false, review_url := none,
                total_comments := pr_review.review_comments.length }
  else
    match (post_pr_review_comments env pr_review.review_comments pr_files).2 with
    | Except.error e => Except.error e
    | Except.ok url =>
      Except.ok { review := pr_review, comments_posted := true, review_url := url,
                  total_comments := pr_review.review_comments.length }

/-- The per-file block of `_build_evaluation_prompt`
(claude_service.py:21-27): filename, change status, and the patch text or
the explicit marker for a missing patch, each block framed by newlines
and a `---` separator. -/
def fileBlock (f : FileDiff) : String :=
  "\nFile: " ++ f.filename ++ "\nStatus: " ++ f.status ++ "\nChanges:\n" ++
  (if f.patch = "" then "No patch available" else f.patch) ++ "\n---\n"

/-- The text of the evaluation prompt before the spliced file blocks
(claude_service.py:31-34). -/
def promptIntro : String :=
  "You are an expert code reviewer. Analyze the following Pull Request changes and provide a detailed evaluation.\n\nPR Files and Changes:\n"

/-- The text of the evaluation prompt after the spliced file blocks
(claude_service.py:35-108): rubric, line-number instructions with the
example patch, and the required JSON output shape. -/
def promptRubric : String :=
  "\n\nEvaluate this PR based on the following criteria and provide your response in valid JSON format:\n\n" ++
  "1. **Summary**: Provide a comprehensive summary of what this PR does, the approach taken, and overall quality assessment (2-4 sentences)\n\n" ++
  "2. **Creativity Score (0-10)**: Rate the creativity and innovation in the solution\n" ++
  "   - 0-3: Basic/mundane implementation, no creative problem-solving\n" ++
  "   - 4-6: Standard approach with some thoughtful decisions\n" ++
  "   - 7-8: Creative solution with innovative patterns or techniques\n" ++
  "   - 9-10: Exceptional creativity, novel approach that elegantly solves complex problems\n\n" ++
  "3. **Efficiency Score (0-10)**: Rate the code efficiency and performance considerations\n" ++
  "   - 0-3: Inefficient code, performance issues, poor algorithm choices\n" ++
  "   - 4-6: Acceptable efficiency, standard implementations\n" ++
  "   - 7-8: Well-optimized code, good algorithm choices, considers performance\n" ++
  "   - 9-10: Highly optimized, excellent performance considerations, minimal resource usage\n\n" ++
  "4. **Edge Case Handling Score (0-10)**: Rate how well edge cases and error scenarios are handled\n" ++
  "   - 0-3: No edge case handling, likely to break with unexpected input\n" ++
  "   - 4-6: Basic error handling, covers common cases\n" ++
  "   - 7-8: Good coverage of edge cases, proper validation and error handling\n" ++
  "   - 9-10: Comprehensive edge case handling, defensive programming, handles all scenarios\n\n" ++
  "5. **Review Comments**: **CRITICAL INSTRUCTIONS FOR LINE NUMBERS**\n\n" ++
  "   You must ONLY comment on lines that are in the diff (marked with \x27+\x27 at the start).\n\n" ++
  "   For each issue, look at the patch and find a line that starts with \x27+\x27 that contains the problematic code.\n" ++
  "   Use that EXACT line\x27s number.\n\n" ++
  "   Example patch:\n" ++
  "   \x60\x60\x60\n" ++
  "   @@ -10,4 +10,7 @@\n" ++
  "    const greeting = \"hello\";\n" ++
  "   -const x = 1;\n" ++
  "   +const count = 0;\n" ++
  "   +const isActive = true;\n" ++
  "    return greeting;\n" ++
  "   \x60\x60\x60\n\n" ++
  "   In this example:\n" ++
  "   - Line 12 in new file: \x60const count = 0;\x60 (this is a + line, you CAN comment on this)\n" ++
  "   - Line 13 in new file: \x60const isActive = true;\x60 (this is a + line, you CAN comment on this)\n" ++
  "   - Line 11: \x60const greeting = \"hello\";\x60 (this is a context line with space, SKIP THIS)\n" ++
  "   - Line 14: \x60return greeting;\x60 (this is a context line, SKIP THIS)\n\n" ++
  "   Each comment must include:\n" ++
  "   - path: The file path exactly as shown\n" ++
  "   - line: The line number of a \x27+\x27 line from the patch (NEW file line number)\n" ++
  "   - body: The constructive comment text\n\n" ++
  "   **DO NOT comment on:**\n" ++
  "   - Lines that start with \x27 \x27 (space) - these are unchanged context lines\n" ++
  "   - Lines that start with \x27-\x27 - these are deleted lines\n" ++
  "   - Lines that are not in the patch at all\n\n" ++
  "   If the code is excellent with no issues, return an empty array.\n\n" ++
  "**IMPORTANT**: Return ONLY valid JSON in exactly this format, no additional text:\n" ++
  "\x7b\n" ++
  "  \"summary\": \"your detailed summary here\",\n" ++
  "  \"creativity_score\": 7,\n" ++
  "  \"efficiency_score\": 8,\n" ++
  "  \"edge_case_handling_score\": 6,\n" ++
  "  \"review_comments\": [\n" ++
  "    \x7b\n" ++
  "      \"path\": \"src/example.py\",\n" ++
  "      \"line\": 12,\n" ++
  "      \"body\": \"Consider adding validation for count to ensure it\x27s non-negative\"\n" ++
  "    \x7d\n" ++
  "  ]\n" ++
  "\x7d\n\n" ++
  "FINAL WARNING: Each line number MUST be from a line that starts with \x27+\x27 in the patch. Verify each line number before including it."

/-- Embeds `ClaudeService._build_evaluation_prompt`
(claude_service.py:15-110): the per-file blocks joined with newlines,
spliced between the fixed intro and the fixed rubric text. -/
def build_evaluation_prompt (pr_files : List FileDiff) : String :=
  promptIntro ++ String.intercalate "\n" (pr_files.map fileBlock) ++ promptRubric

/-- The error raised by `ClaudeService.evaluate_pr` for an empty file
list (claude_service.py:125-129), called `NoFilesToEvaluate` in the
specification. -/
inductive PromptError where
  | noFilesToEvaluate
deriving DecidableEq, Repr

/-- The prompt-building phase of the evaluation, `buildPrompt` in the
specification: the empty-list guard of `ClaudeService.evaluate_pr`
(claude_service.py:125-129) followed by `_build_evaluation_prompt`
(claude_service.py:131). -/
def buildPrompt (pr_files : List FileDiff) : Except PromptError String :=
  if pr_files = [] then Except.error PromptError.noFilesToEvaluate
  else Except.ok (build_evaluation_prompt pr_files)

/-- Hunk bodies consisting solely of deletion lines: tracking the same
`in_hunk` flag as the scan, every non-header line inside a hunk starts
with `-` (empty split artifacts are also tolerated, they are neither `+`
nor context lines). -/
def deletionOnlyLines : Bool → List (List Char) → Bool
  | _, [] => true
  | inh, l :: ls =>
    if isHeader l then deletionOnlyLines true ls
    else (!inh || startsMinus l || l.isEmpty) && deletionOnlyLines inh ls

/-- The patch used as the worked example in the specification and in the
prompt of claude_service.py:66-73: hunk header `@@ -10,4 +10,7 @@`, one
context line, two `+` lines, one context line. -/
def examplePatch : String :=
  "@@ -10,4 +10,7 @@\n const greeting = \"hello\";\n+const count = 0;\n+const isActive = true;\n return greeting;"

/-- A host environment in which every call succeeds. -/
def exampleEnvOk : HostEnv :=
  { shaStatus := 200, commitSha := "sha0", reviewStatus := 201, reviewHtmlUrl := some "rurl",
    generalStatus := 201, generalHtmlUrl := some "gurl" }

/-- A host environment whose review-creation endpoint answers 404. -/
def exampleEnv404 : HostEnv :=
  { shaStatus := 200, commitSha := "sha0", reviewStatus := 404, reviewHtmlUrl := none,
    generalStatus := 201, generalHtmlUrl := some "gurl" }

/-- A comment targeting new-file line 12 of `examplePatch`. -/
def exampleComment : ReviewComment := { path := "f.py", line := 12, body := "note" }

/-- The snapshot entry whose patch is `examplePatch`. -/
def exampleFile : FileDiff := { filename := "f.py", status := "modified", patch := examplePatch }

/-- A review carrying one comment. -/
def exampleReview : PRReview :=
  { summary := "s", creativity_score := 7, efficiency_score := 8, edge_case_handling_score := 6,
    review_comments := [exampleComment] }

/-! ## Helper lemmas -/

/-- A line that starts with `-`, and the empty line, fail the combined
new-file-counter condition of the scan. -/
theorem countsNewLine_false_of_deletion (l : List Char)
    (h : startsMinus l = true ∨ l.isEmpty = true) : countsNewLine l = false := by
  cases l with
  | nil => rfl
  | cons c cs =>
    rcases h with h | h
    · have hc : c = '-' := by simpa [startsMinus] using h
      subst hc
      simp [countsNewLine, startsPlus, startsSpace, startsMinus]
    · simp [List.isEmpty] at h

/-- A scan that never sees a `+` or context line inside a hunk keeps
`last_valid_position = none` and ends with `none`. -/
theorem diffScanGo_deletion_only (t : Int) (ls : List (List Char)) :
    ∀ (inh : Bool) (pos : Nat) (cur : Int) (cl : Int),
      deletionOnlyLines inh ls = true →
      diffScanGo t ls pos cur inh none cl = none := by
  induction ls with
  | nil => intro inh pos cur cl _; simp [diffScanGo]
  | cons l ls ih =>
    intro inh pos cur cl h
    by_cases hh : isHeader l = true
    · rw [deletionOnlyLines, if_pos hh] at h
      simp only [diffScanGo, hh, if_pos]
      exact ih true 0 _ cl h
    · have hh' : isHeader l = false := by simpa using hh
      rw [deletionOnlyLines, if_neg (by simp [hh'])] at h
      simp only [Bool.and_eq_true] at h
      obtain ⟨h1, h2⟩ := h
      cases inh with
      | false =>
        simp only [diffScanGo, hh', Bool.false_eq_true, if_false]
        exact ih false pos cur cl h2
      | true =>
        have hc : countsNewLine l = false := by
          apply countsNewLine_false_of_deletion
          simpa using h1
        simp only [diffScanGo, hh', Bool.false_eq_true, if_false, if_true, hc]
        exact ih true (pos + 1) cur cl h2

/-- Every `some` answer of the scan is at least 1: exact matches return
an incremented position, and the final fallback rejects a stored `0`. -/
theorem diffScanGo_one_le (t : Int) (ls : List (List Char)) :
    ∀ (pos : Nat) (cur : Int) (inh : Bool) (lv : Option Nat) (cl : Int) (p : Nat),
      diffScanGo t ls pos cur inh lv cl = some p → 1 ≤ p := by
  induction ls with
  | nil =>
    intro pos cur inh lv cl p h
    cases lv with
    | none => simp [diffScanGo] at h
    | some q =>
      simp only [diffScanGo] at h
      split at h
      · rename_i hq
        cases h
        omega
      · cases h
  | cons l ls ih =>
    intro pos cur inh lv cl p h
    simp only [diffScanGo] at h
    split at h
    · exact ih _ _ _ _ _ _ h
    · split at h
      · split at h
        · split at h
          · cases h; omega
          · split at h
            · exact ih _ _ _ _ _ _ h
            · exact ih _ _ _ _ _ _ h
        · exact ih _ _ _ _ _ _ h
      · exact ih _ _ _ _ _ _ h

/-- A scan that is outside every hunk, with nothing stored, stays that
way when no header line is left, and ends with `none`. -/
theorem diffScanGo_no_header (t : Int) (ls : List (List Char)) :
    ∀ (pos : Nat) (cur : Int) (cl : Int),
      (∀ l ∈ ls, isHeader l = false) →
      diffScanGo t ls pos cur false none cl = none := by
  induction ls with
  | nil => intro pos cur cl _; simp [diffScanGo]
  | cons l ls ih =>
    intro pos cur cl h
    have hh : isHeader l = false := h l (List.mem_cons_self l ls)
    simp only [diffScanGo, hh, Bool.false_eq_true, if_false]
    exact ih pos cur cl (fun x hx => h x (List.mem_cons_of_mem l hx))

/-! ## Claims C1-C4 and C10: the Diff Position Mapper -/

/-- C1: for a patch consisting of the hunk header `@@ -10,4 +10,7 @@`
followed, in order, by one context line, two `+` lines and one context
line, `calculate_diff_position` applied to target line 12 returns
position 3: the header is excluded from the position count, the counter
is reset to 0 at the header, and every diff line after the header
increments it by 1. -/
theorem c1_header_example_line12_position3 :
    calculate_diff_position examplePatch 12 = some 3 := by decide

/-- C2: the tolerance fallback fails for small target lines.  In the
patch `@@ -8,2 +8,2 @@` with two context lines (new-file lines 8 and 9),
target line 4 matches nothing exactly and the nearest context line (line
8, position 1, as the second conjunct shows) is 4 away, within the
claimed tolerance of 5 - yet the code returns none: `closest_line` is
initialised to 0, so a candidate is only recorded when it is strictly
closer to the target than the phantom line 0, which never happens for
targets at distance at most their own magnitude.  This contradicts the
comments at github_service.py:181 and 203. -/
theorem c2_fallback_misses_small_targets :
    calculate_diff_position "@@ -8,2 +8,2 @@\n alpha\n beta" 4 = none ∧
    calculate_diff_position "@@ -8,2 +8,2 @@\n alpha\n beta" 8 = some 1 := by
  constructor <;> decide

/-- C4 counterexample: a line beginning with a backslash consumes a
new-file line number.  In `@@ -1,1 +1,1 @@` followed by a single
`\ No newline at end of file` marker there is no `+` line and no
space-context line at all, yet target line 1 is mapped: the marker line
itself received new-file number 1 through the catch-all disjunct
`not line.startswith("-") and len(line) > 0` at github_service.py:188-190. -/
theorem c4_counterexample_backslash_consumes :
    calculate_diff_position "@@ -1,1 +1,1 @@\n\\ No newline at end of file" 1 = some 1 := by
  decide

/-- C4 amended: within a hunk the new-file line counter is incremented
exactly on the lines satisfying `countsNewLine` - lines beginning with
`+`, lines beginning with a space, and every other non-empty line not
beginning with `-` (for example a backslash line); lines beginning with
`-` and empty lines consume no new-file line number.  Stated on one scan
step for a non-header line inside a hunk: a non-counting line leaves the
counter untouched and only advances the position, while a counting line
receives the next new-file number `cur + 1` and is returned when that
number is the target. -/
theorem c4_new_file_counter_condition (t : Int) (l : List Char) (ls : List (List Char))
    (pos : Nat) (cur : Int) (lv : Option Nat) (cl : Int) (hh : isHeader l = false) :
    (countsNewLine l = false →
      diffScanGo t (l :: ls) pos cur true lv cl = diffScanGo t ls (pos + 1) cur true lv cl) ∧
    (countsNewLine l = true → cur + 1 = t →
      diffScanGo t (l :: ls) pos cur true lv cl = some (pos + 1)) := by
  constructor
  · intro hc
    simp [diffScanGo, hh, hc]
  · intro hc ht
    simp [diffScanGo, hh, hc, ht]

/-- Witness for C4 amended: a deletion line advances only the position
(left conjunct), while a `+` line receives the next new-file number and
is returned on an exact match (right conjunct). -/
theorem c4_new_file_counter_condition_witness :
    diffScanGo 9 [['-', 'a']] 3 7 true none 0 = diffScanGo 9 ([] : List (List Char)) 4 7 true none 0 ∧
    diffScanGo 8 [['+', 'b']] 3 7 true none 0 = some 4 :=
  ⟨(c4_new_file_counter_condition 9 ['-', 'a'] [] 3 7 none 0 (by decide)).1 (by decide),
   (c4_new_file_counter_condition 8 ['+', 'b'] [] 3 7 none 0 (by decide)).2 (by decide) (by decide)⟩

/-- C3: a patch whose hunk bodies contain only deletion lines (no `+`
lines, no context lines) is unmappable for every target line: the scan
never stores a fallback candidate, so neither an exact match nor the
tolerance fallback can fire, not even at zero distance. -/
theorem c3_deletion_only_unmappable (patch : String) (t : Int)
    (h : deletionOnlyLines false (splitOnChar '\n' patch.data) = true) :
    calculate_diff_position patch t = none := by
  unfold calculate_diff_position
  split
  · rfl
  · exact diffScanGo_deletion_only t _ false 0 0 0 h

/-- Witness for C3 at a two-line deletion hunk. -/
theorem c3_deletion_only_unmappable_witness :
    calculate_diff_position "@@ -1,2 +1,0 @@\n-a\n-b" 1 = none :=
  c3_deletion_only_unmappable "@@ -1,2 +1,0 @@\n-a\n-b" 1 (by decide)

/-- C10: every position the mapper returns is at least 1, the empty
patch is unmappable, and a patch without any `@@` hunk header line is
unmappable for every target. -/
theorem c10_position_invariants :
    (∀ (patch : String) (t : Int) (p : Nat), calculate_diff_position patch t = some p → 1 ≤ p) ∧
    (∀ t : Int, calculate_diff_position "" t = none) ∧
    (∀ (patch : String) (t : Int),
      (∀ l ∈ splitOnChar '\n' patch.data, isHeader l = false) →
      calculate_diff_position patch t = none) := by
  refine ⟨?_, ?_, ?_⟩
  · intro patch t p h
    unfold calculate_diff_position at h
    split at h
    · cases h
    · exact diffScanGo_one_le t _ _ _ _ _ _ _ h
  · intro t; rfl
  · intro patch t h
    unfold calculate_diff_position
    split
    · rfl
    · exact diffScanGo_no_header t _ 0 0 0 h

/-- Witness for C10: the mapped position 3 of the C1 example is at least
1, and a patch with no hunk header maps nothing. -/
theorem c10_position_invariants_witness :
    1 ≤ 3 ∧ calculate_diff_position "no hunks\nhere" 5 = none :=
  ⟨c10_position_invariants.1 examplePatch 12 3 (by decide),
   c10_position_invariants.2.2 "no hunks\nhere" 5 (by decide)⟩

/-! ## Claim C6: the PR Reference Parser -/

/-- Splitting a separator-free list yields that list alone. -/
theorem splitOnChar_of_not_mem (sep : Char) (xs : List Char) (h : sep ∉ xs) :
    splitOnChar sep xs = [xs] := by
  induction xs with
  | nil => rfl
  | cons c cs ih =>
    simp only [List.mem_cons, not_or] at h
    rw [splitOnChar, if_neg (fun e => h.1 e.symm), ih h.2]

/-- Splitting peels off a separator-free prefix as the first part. -/
theorem splitOnChar_append_sep (sep : Char) (xs ys : List Char) (h : sep ∉ xs) :
    splitOnChar sep (xs ++ sep :: ys) = xs :: splitOnChar sep ys := by
  induction xs with
  | nil => simp [splitOnChar]
  | cons c cs ih =>
    simp only [List.mem_cons, not_or] at h
    rw [List.cons_append, splitOnChar, if_neg (fun e => h.1 e.symm), ih h.2]

/-- `rstrip` is the identity on a list whose last element is not the
stripped character. -/
theorem rstrip_of_last_ne (sep : Char) (xs : List Char) (c : Char) (h : c ≠ sep) :
    rstrip sep (xs ++ [c]) = xs ++ [c] := by
  simp [rstrip, List.dropWhile_cons, h]

/-- `rstrip` removes a trailing separator. -/
theorem rstrip_append_sep (sep : Char) (xs : List Char) :
    rstrip sep (xs ++ [sep]) = rstrip sep xs := by
  simp [rstrip, List.dropWhile_cons]

/-- C6 counterexample: the parser does not validate that the PR-number
segment is numeric.  The URL `https://github.com/o/r/pull/abc` has a path
that does not match `/<owner>/<repo>/pull/<number>` - its last segment is
not a number, as the second conjunct records - yet `parse_pr_link`
succeeds and returns the non-numeric segment, instead of failing with
`InvalidReferenceFormat` as the claim requires. -/
theorem c6_counterexample_nonnumeric_accepted :
    parse_pr_link "https://github.com/o/r/pull/abc" = Except.ok ("o", "r", "abc") ∧
    "abc".data.all Char.isDigit = false :=
  ⟨rfl, by decide⟩

/-- C6 amended: `parse_pr_link` splits the trailing-slash-stripped URL on
`/` and fails with `InvalidReferenceFormat` exactly when fewer than 7
parts result or part 5 is not `pull`; every URL of the shape
`https://github.com/<owner>/<repo>/pull/<segment>` with slash-free owner,
repo and non-empty final segment parses to that (owner, repo, segment)
triple, with a trailing slash tolerated - the final segment is not
required to be numeric.  The function is pure: the embedding performs no
effect. -/
theorem c6_parse_pr_link_shape (o r n : String)
    (ho : '/' ∉ o.data) (hrr : '/' ∉ r.data) (hn : '/' ∉ n.data) (hne : n.data ≠ []) :
    parse_pr_link ("https://github.com/" ++ o ++ "/" ++ r ++ "/pull/" ++ n) = Except.ok (o, r, n) ∧
    parse_pr_link ("https://github.com/" ++ o ++ "/" ++ r ++ "/pull/" ++ n ++ "/") = Except.ok (o, r, n) := by
  obtain ⟨m, c, hm⟩ : ∃ m c, n.data = m ++ [c] := by
    rcases List.eq_nil_or_concat n.data with h | ⟨m, c, hmc⟩
    · exact absurd h hne
    · exact ⟨m, c, by simpa [List.concat_eq_append] using hmc⟩
  have hc : c ≠ '/' := by
    intro e
    exact hn (by rw [hm, e]; simp)
  have hdata : ("https://github.com/" ++ o ++ "/" ++ r ++ "/pull/" ++ n).data
      = "https:".data ++ '/' :: (([] : List Char) ++ '/' :: ("github.com".data ++ '/' ::
        (o.data ++ '/' :: (r.data ++ '/' :: ("pull".data ++ '/' :: n.data))))) := by
    show "https://github.com/".data ++ o.data ++ "/".data ++ r.data ++ "/pull/".data ++ n.data = _
    simp [List.append_assoc]
  have hsplit : splitOnChar '/' ("https://github.com/" ++ o ++ "/" ++ r ++ "/pull/" ++ n).data
      = ["https:".data, [], "github.com".data, o.data, r.data, "pull".data, n.data] := by
    rw [hdata,
      splitOnChar_append_sep '/' "https:".data _ (by decide),
      splitOnChar_append_sep '/' [] _ (by simp),
      splitOnChar_append_sep '/' "github.com".data _ (by decide),
      splitOnChar_append_sep '/' o.data _ ho,
      splitOnChar_append_sep '/' r.data _ hrr,
      splitOnChar_append_sep '/' "pull".data _ (by decide),
      splitOnChar_of_not_mem '/' n.data hn]
  have heq : ("https://github.com/" ++ o ++ "/" ++ r ++ "/pull/" ++ n).data
      = ("https://github.com/".data ++ o.data ++ "/".data ++ r.data ++ "/pull/".data ++ m) ++ [c] := by
    show "https://github.com/".data ++ o.data ++ "/".data ++ r.data ++ "/pull/".data ++ n.data = _
    rw [hm]
    simp [List.append_assoc]
  have hstrip : rstrip '/' ("https://github.com/" ++ o ++ "/" ++ r ++ "/pull/" ++ n).data
      = ("https://github.com/" ++ o ++ "/" ++ r ++ "/pull/" ++ n).data := by
    rw [heq, rstrip_of_last_ne '/' _ c hc]
  have hstrip2 : rstrip '/' ("https://github.com/" ++ o ++ "/" ++ r ++ "/pull/" ++ n ++ "/").data
      = ("https://github.com/" ++ o ++ "/" ++ r ++ "/pull/" ++ n).data := by
    show rstrip '/' (("https://github.com/" ++ o ++ "/" ++ r ++ "/pull/" ++ n).data ++ ['/']) = _
    rw [rstrip_append_sep '/' _]
    exact hstrip
  constructor
  · rw [parse_pr_link]
    simp only [hstrip, hsplit]
    rfl
  · rw [parse_pr_link]
    simp only [hstrip2, hsplit]
    rfl

/-- Witness for C6 amended at the URL of the end-to-end scenario of the
specification, with and without a trailing slash. -/
theorem c6_parse_pr_link_shape_witness :
    parse_pr_link ("https://github.com/" ++ "acme" ++ "/" ++ "widgets" ++ "/pull/" ++ "42") = Except.ok ("acme", "widgets", "42") ∧
    parse_pr_link ("https://github.com/" ++ "acme" ++ "/" ++ "widgets" ++ "/pull/" ++ "42" ++ "/") = Except.ok ("acme", "widgets", "42") :=
  c6_parse_pr_link_shape "acme" "widgets" "42" (by decide) (by decide) (by decide) (by decide)

/-! ## Claim C9: the Evaluation Prompt Builder -/

/-- C9: building the evaluation prompt fails with `NoFilesToEvaluate` if
and only if the file list is empty; for every non-empty file list it
never fails; and it is deterministic - equal inputs give equal prompts
(immediate for a pure function, recorded for completeness).  The
empty-list guard lives in `ClaudeService.evaluate_pr`
(claude_service.py:125-129) and fires before `_build_evaluation_prompt`
is reached. -/
theorem c9_buildPrompt_empty_iff :
    (∀ fs : List FileDiff, buildPrompt fs = Except.error PromptError.noFilesToEvaluate ↔ fs = []) ∧
    (∀ fs : List FileDiff, fs ≠ [] → ∃ s, buildPrompt fs = Except.ok s) ∧
    (∀ fs gs : List FileDiff, fs = gs → buildPrompt fs = buildPrompt gs) := by
  refine ⟨fun fs => ?_, fun fs h => ?_, fun fs gs h => by rw [h]⟩
  · constructor
    · intro h
      by_contra hne
      rw [buildPrompt, if_neg hne] at h
      cases h
    · intro h
      rw [buildPrompt, if_pos h]
  · exact ⟨build_evaluation_prompt fs, by rw [buildPrompt, if_neg h]⟩

/-- Witness for C9: the empty list fails with `NoFilesToEvaluate`, a
one-file list succeeds. -/
theorem c9_buildPrompt_empty_iff_witness :
    buildPrompt [] = Except.error PromptError.noFilesToEvaluate ∧
    ∃ s, buildPrompt [exampleFile] = Except.ok s :=
  ⟨(c9_buildPrompt_empty_iff.1 []).mpr rfl,
   c9_buildPrompt_empty_iff.2.1 [exampleFile] (by simp)⟩

/-! ## Claims C5, C7, C8: the Review Publisher and the route -/

/-- Folding the per-comment blocks onto an accumulator only extends it on
the right: the accumulator is a prefix of the result. -/
theorem fallback_foldl_extends (l : List ReviewComment) :
    ∀ acc : String, acc.data <+: (l.foldl (fun a c => a ++ commentChunk c) acc).data := by
  induction l with
  | nil => intro acc; exact ⟨[], List.append_nil _⟩
  | cons c cs ih =>
    intro acc
    refine List.IsPrefix.trans ?_ (ih (acc ++ commentChunk c))
    exact ⟨(commentChunk c).data, rfl⟩

/-- Every comment of the list contributes its block to the aggregated
fallback comment. -/
theorem commentChunk_infix_fallback (comments : List ReviewComment) (c : ReviewComment)
    (h : c ∈ comments) :
    (commentChunk c).data <:+: (fallback_general_comment comments).data := by
  rw [fallback_general_comment]
  generalize "## AI Code Review by xEPAS\n\n" = acc
  induction comments generalizing acc with
  | nil => cases h
  | cons c0 cs ih =>
    rcases List.mem_cons.mp h with h0 | h0
    · subst h0
      have h1 : (commentChunk c).data <:+: (acc ++ commentChunk c).data :=
        List.IsSuffix.isInfix ⟨acc.data, rfl⟩
      have h2 : (acc ++ commentChunk c).data <+:
          ((c :: cs).foldl (fun a c => a ++ commentChunk c) acc).data := by
        rw [List.foldl_cons]
        exact fallback_foldl_extends cs (acc ++ commentChunk c)
      exact h1.trans h2.isInfix
    · rw [List.foldl_cons]
      exact ih h0 (acc ++ commentChunk c0)

/-- The full behavior of the publisher on a 422 answer from the
review-creation endpoint, with the sha fetch and the general-comment
call succeeding: the trace is the sha fetch, the rejected batch, and one
issue comment carrying the aggregated fallback body. -/
theorem publish_trace_on_422 (env : HostEnv) (comments : List ReviewComment)
    (files : List FileDiff) (hne : comments ≠ []) (hsha : env.shaStatus = 200)
    (hrev : env.reviewStatus = 422)
    (hgen : env.generalStatus = 200 ∨ env.generalStatus = 201) :
    post_pr_review_comments env comments files =
      ([HostCall.getCommitSha,
        HostCall.createReview
          { commit_id := env.commitSha, body := "AI Code Review by xEPAS", event := "COMMENT",
            comments := github_inline_comments comments },
        HostCall.createIssueComment (fallback_general_comment comments)],
       Except.ok env.generalHtmlUrl) := by
  rw [post_pr_review_comments, if_neg hne]
  rcases hgen with hgen | hgen <;>
    simp [get_latest_commit_sha, post_general_pr_comment, hsha, hrev, hgen]

/-- C5 counterexample: the publisher does not resolve diff positions.
With a snapshot containing `exampleFile`, whose patch maps the comment
line 12 to diff position 3 (second conjunct), the publisher behaves
identically when the snapshot is empty (first conjunct) - the snapshot is
never consulted - and the submitted payload entry carries the raw line 12
with `side = RIGHT` and no position field (third conjunct). -/
theorem c5_counterexample_mapper_unused :
    post_pr_review_comments exampleEnvOk [exampleComment] [exampleFile]
      = post_pr_review_comments exampleEnvOk [exampleComment] [] ∧
    calculate_diff_position exampleFile.patch 12 = some 3 ∧
    github_inline_comments [exampleComment]
      = [{ path := "f.py", line := 12, side := "RIGHT", body := "note" }] :=
  ⟨rfl, by decide, rfl⟩

/-- C5 amended: for every comment list the publisher submits each comment
with its raw `line` and `side = RIGHT` - it never invokes the Diff
Position Mapper and the snapshot (`pr_files`) plays no role: the result
is the same for any two snapshots, and on a successful publish the single
review batch contains exactly the line/side translation of the comments. -/
theorem c5_publisher_uses_line_side (env : HostEnv) (comments : List ReviewComment)
    (files files2 : List FileDiff) :
    post_pr_review_comments env comments files = post_pr_review_comments env comments files2 ∧
    (comments ≠ [] → env.shaStatus = 200 → env.reviewStatus = 201 →
      post_pr_review_comments env comments files =
        ([HostCall.getCommitSha,
          HostCall.createReview
            { commit_id := env.commitSha, body := "AI Code Review by xEPAS", event := "COMMENT",
              comments := comments.map (fun c => { path := c.path, line := c.line, side := "RIGHT", body := c.body }) }],
         Except.ok env.reviewHtmlUrl)) := by
  constructor
  · rfl
  · intro hne hsha hrev
    rw [post_pr_review_comments, if_neg hne]
    simp [get_latest_commit_sha, hsha, hrev, github_inline_comments]

/-- Witness for C5 amended: one comment, a succeeding host, the empty
snapshot against a one-file snapshot. -/
theorem c5_publisher_uses_line_side_witness :
    post_pr_review_comments exampleEnvOk [exampleComment] [] =
      ([HostCall.getCommitSha,
        HostCall.createReview
          { commit_id := "sha0", body := "AI Code Review by xEPAS", event := "COMMENT",
            comments := [{ path := "f.py", line := 12, side := "RIGHT", body := "note" }] }],
       Except.ok (some "rurl")) :=
  (c5_publisher_uses_line_side exampleEnvOk [exampleComment] [] [exampleFile]).2
    (by simp) rfl rfl

/-- C7: when the review-creation endpoint answers 422 and the
general-comment endpoint accepts, the publisher makes exactly one
general-comment creation call - the full trace is the sha fetch, the
rejected review batch, and one issue comment - whose body contains the
path, line and body block of every original comment, and the route
reports the outcome as `comments_posted = true` with the computed review,
rather than as a failure. -/
theorem c7_fallback_on_422 (env : HostEnv) (comments : List ReviewComment)
    (files : List FileDiff) (rev : PRReview)
    (hne : comments ≠ []) (hsha : env.shaStatus = 200) (hrev : env.reviewStatus = 422)
    (hgen : env.generalStatus = 200 ∨ env.generalStatus = 201)
    (hcom : rev.review_comments = comments) :
    post_pr_review_comments env comments files =
      ([HostCall.getCommitSha,
        HostCall.createReview
          { commit_id := env.commitSha, body := "AI Code Review by xEPAS", event := "COMMENT",
            comments := github_inline_comments comments },
        HostCall.createIssueComment (fallback_general_comment comments)],
       Except.ok env.generalHtmlUrl) ∧
    (∀ c ∈ comments, (commentChunk c).data <:+: (fallback_general_comment comments).data) ∧
    evaluate_and_comment_pr rev files env =
      Except.ok { review := rev, comments_posted := true, review_url := env.generalHtmlUrl,
                  total_comments := comments.length } := by
  refine ⟨publish_trace_on_422 env comments files hne hsha hrev hgen,
    fun c hc => commentChunk_infix_fallback comments c hc, ?_⟩
  rw [evaluate_and_comment_pr, if_neg (by rw [hcom]; exact hne), hcom,
    publish_trace_on_422 env comments files hne hsha hrev hgen]

/-- Witness for C7: one comment, a host that rejects the batch with 422
and accepts the general comment with 201. -/
theorem c7_fallback_on_422_witness :
    evaluate_and_comment_pr exampleReview []
      { shaStatus := 200, commitSha := "sha0", reviewStatus := 422, reviewHtmlUrl := none,
        generalStatus := 201, generalHtmlUrl := some "gurl" } =
      Except.ok { review := exampleReview, comments_posted := true, review_url := some "gurl",
                  total_comments := 1 } :=
  (c7_fallback_on_422
    { shaStatus := 200, commitSha := "sha0", reviewStatus := 422, reviewHtmlUrl := none,
      generalStatus := 201, generalHtmlUrl := some "gurl" }
    [exampleComment] [] exampleReview (by simp) rfl rfl (Or.inr rfl) rfl).2.2

/-- C8 counterexample: a publish failure discards the computed review.
With a concrete evaluated review carrying one comment, a host whose
review-creation endpoint answers 404 makes the route raise: the caller
receives the bare error 404 and not the `PRReview`, although evaluation
had succeeded - there is no try/except around the publish call at
routes/github.py:47-53. -/
theorem c8_counterexample_publish_failure_discards_review :
    evaluate_and_comment_pr exampleReview [] exampleEnv404 = Except.error 404 := rfl

/-- For a non-empty comment list, a failing head-commit fetch makes the
publisher fail: whatever non-200 status the sha endpoint answers, the
result is an error. -/
theorem publish_error_on_sha_failure (env : HostEnv) (comments : List ReviewComment)
    (files : List FileDiff) (hne : comments ≠ []) (hsha : env.shaStatus ≠ 200) :
    ∃ e, (post_pr_review_comments env comments files).2 = Except.error e := by
  rw [post_pr_review_comments, if_neg hne]
  by_cases h4 : env.shaStatus = 404
  · exact ⟨404, by simp [get_latest_commit_sha, h4]⟩
  · by_cases h1 : env.shaStatus = 401
    · exact ⟨401, by simp [get_latest_commit_sha, h4, h1]⟩
    · exact ⟨env.shaStatus, by simp [get_latest_commit_sha, h4, h1, hsha]⟩

/-- For a non-empty comment list with the sha fetch succeeding, every
non-2xx answer of the review-creation endpoint other than 422 makes the
publisher fail. -/
theorem publish_error_on_review_failure (env : HostEnv) (comments : List ReviewComment)
    (files : List FileDiff) (hne : comments ≠ []) (hsha : env.shaStatus = 200)
    (h422 : env.reviewStatus ≠ 422)
    (hok : ¬(env.reviewStatus = 200 ∨ env.reviewStatus = 201)) :
    ∃ e, (post_pr_review_comments env comments files).2 = Except.error e := by
  rw [post_pr_review_comments, if_neg hne]
  by_cases h4 : env.reviewStatus = 404
  · exact ⟨404, by simp [get_latest_commit_sha, hsha, h422, h4]⟩
  · by_cases h1 : env.reviewStatus = 401
    · exact ⟨401, by simp [get_latest_commit_sha, hsha, h422, h4, h1]⟩
    · exact ⟨env.reviewStatus, by simp [get_latest_commit_sha, hsha, h422, h4, h1, hok]⟩

/-- For a non-empty comment list, a 422 review rejection followed by a
non-2xx answer of the general-comment endpoint makes the publisher fail
with that status: the fallback call itself raised. -/
theorem publish_error_on_fallback_failure (env : HostEnv) (comments : List ReviewComment)
    (files : List FileDiff) (hne : comments ≠ []) (hsha : env.shaStatus = 200)
    (hrev : env.reviewStatus = 422)
    (hgen : ¬(env.generalStatus = 200 ∨ env.generalStatus = 201)) :
    (post_pr_review_comments env comments files).2 = Except.error env.generalStatus := by
  rw [post_pr_review_comments, if_neg hne]
  simp [get_latest_commit_sha, post_general_pr_comment, hsha, hrev, hgen]

/-- The route turns every publisher error into the same bare error: the
review is not part of the answer. -/
theorem route_error_of_publish_error (rev : PRReview) (files : List FileDiff)
    (env : HostEnv) (hne : rev.review_comments ≠ []) (e : Nat)
    (h : (post_pr_review_comments env rev.review_comments files).2 = Except.error e) :
    evaluate_and_comment_pr rev files env = Except.error e := by
  rw [evaluate_and_comment_pr, if_neg hne, h]

/-- C8 amended: for a review with comments to post, only the 422
rejection of the review batch preserves the computed `PRReview` - with
the fallback call accepted, the route still returns the review with
`comments_posted = true`; every other publish failure propagates as an
error that does not carry the review: a non-200 answer of the sha fetch
(404, 401 or any other status), a non-2xx answer of the review creation
other than 422 (404, 401 or any other status), and a non-2xx answer of
the fallback general-comment call after a 422. -/
theorem c8_review_preserved_only_on_422 (rev : PRReview) (files : List FileDiff)
    (env : HostEnv) (hne : rev.review_comments ≠ []) :
    (env.shaStatus = 200 → env.reviewStatus = 422 →
      (env.generalStatus = 200 ∨ env.generalStatus = 201) →
      evaluate_and_comment_pr rev files env =
        Except.ok { review := rev, comments_posted := true, review_url := env.generalHtmlUrl,
                    total_comments := rev.review_comments.length }) ∧
    (env.shaStatus ≠ 200 →
      ∃ e, evaluate_and_comment_pr rev files env = Except.error e) ∧
    (env.shaStatus = 200 → env.reviewStatus ≠ 422 →
      ¬(env.reviewStatus = 200 ∨ env.reviewStatus = 201) →
      ∃ e, evaluate_and_comment_pr rev files env = Except.error e) ∧
    (env.shaStatus = 200 → env.reviewStatus = 422 →
      ¬(env.generalStatus = 200 ∨ env.generalStatus = 201) →
      evaluate_and_comment_pr rev files env = Except.error env.generalStatus) := by
  refine ⟨?_, ?_, ?_, ?_⟩
  · intro hsha hrev hgen
    rw [evaluate_and_comment_pr, if_neg hne,
      publish_trace_on_422 env rev.review_comments files hne hsha hrev hgen]
  · intro hsha
    obtain ⟨e, he⟩ := publish_error_on_sha_failure env rev.review_comments files hne hsha
    exact ⟨e, route_error_of_publish_error rev files env hne e he⟩
  · intro hsha hrev hok
    obtain ⟨e, he⟩ :=
      publish_error_on_review_failure env rev.review_comments files hne hsha hrev hok
    exact ⟨e, route_error_of_publish_error rev files env hne e he⟩
  · intro hsha hrev hgen
    exact route_error_of_publish_error rev files env hne env.generalStatus
      (publish_error_on_fallback_failure env rev.review_comments files hne hsha hrev hgen)

/-- Witness for C8 amended, exercising all four branches: a
422-plus-accepted-fallback host preserves the review; a host whose sha
fetch answers 500 loses it; a host whose review creation answers 401
loses it; a host that rejects the fallback with 500 after a 422 loses
it. -/
theorem c8_review_preserved_only_on_422_witness :
    evaluate_and_comment_pr exampleReview []
      { shaStatus := 200, commitSha := "sha0", reviewStatus := 422, reviewHtmlUrl := none,
        generalStatus := 201, generalHtmlUrl := some "gurl" } =
      Except.ok { review := exampleReview, comments_posted := true, review_url := some "gurl",
                  total_comments := 1 } ∧
    (∃ e, evaluate_and_comment_pr exampleReview []
      { shaStatus := 500, commitSha := "sha0", reviewStatus := 201, reviewHtmlUrl := none,
        generalStatus := 201, generalHtmlUrl := none } = Except.error e) ∧
    (∃ e, evaluate_and_comment_pr exampleReview []
      { shaStatus := 200, commitSha := "sha0", reviewStatus := 401, reviewHtmlUrl := none,
        generalStatus := 201, generalHtmlUrl := none } = Except.error e) ∧
    evaluate_and_comment_pr exampleReview []
      { shaStatus := 200, commitSha := "sha0", reviewStatus := 422, reviewHtmlUrl := none,
        generalStatus := 500, generalHtmlUrl := none } = Except.error 500 :=
  ⟨(c8_review_preserved_only_on_422 exampleReview []
      { shaStatus := 200, commitSha := "sha0", reviewStatus := 422, reviewHtmlUrl := none,
        generalStatus := 201, generalHtmlUrl := some "gurl" }
      (by simp [exampleReview])).1 rfl rfl (Or.inr rfl),
   (c8_review_preserved_only_on_422 exampleReview []
      { shaStatus := 500, commitSha := "sha0", reviewStatus := 201, reviewHtmlUrl := none,
        generalStatus := 201, generalHtmlUrl := none }
      (by simp [exampleReview])).2.1 (by decide),
   (c8_review_preserved_only_on_422 exampleReview []
      { shaStatus := 200, commitSha := "sha0", reviewStatus := 401, reviewHtmlUrl := none,
        generalStatus := 201, generalHtmlUrl := none }
      (by simp [exampleReview])).2.2.1 rfl (by decide) (by decide),
   (c8_review_preserved_only_on_422 exampleReview []
      { shaStatus := 200, commitSha := "sha0", reviewStatus := 422, reviewHtmlUrl := none,
        generalStatus := 500, generalHtmlUrl := none }
      (by simp [exampleReview])).2.2.2 rfl rfl (by decide)⟩
